import Mathlib

/-!
Formal model of oscrypto/_ffi.py: the dual-engine (cffi / ctypes) FFI
compatibility layer.  Python values and cdata objects are embedded as
inductive value universes, one per engine; fallible Python operations
return Except PyErr.  Definitions follow the source file; comments cite
the line numbers they embed.
-/

/-- Python exception kinds raised by the modelled operations. -/
inductive PyErr where
  | typeError
  | indexError
  | attributeError
  | valueError
  | ffiError
  | memError
  deriving DecidableEq

/-- Exception kinds that can escape module import (bootstrap). -/
inductive ModuleError where
  | importError
  | ffiEngineError
  deriving DecidableEq

instance {ε : Type u} {α : Type v} [DecidableEq ε] [DecidableEq α] :
    DecidableEq (Except ε α) := fun a b =>
  match a, b with
  | .ok x, .ok y =>
    if h : x = y then .isTrue (by rw [h]) else .isFalse (fun hc => h (Except.ok.inj hc))
  | .error x, .error y =>
    if h : x = y then .isTrue (by rw [h]) else .isFalse (fun hc => h (Except.error.inj hc))
  | .ok _, .error _ => .isFalse (fun hc => Except.noConfusion hc)
  | .error _, .ok _ => .isFalse (fun hc => Except.noConfusion hc)

/-- Module bootstrap (lines 22-291): the cffi import is attempted inside
try/except ImportError; on failure the ctypes engine is imported with no
surrounding handler, so a failing ctypes import escapes as a plain
ImportError.  FFIEngineError (defined at line 304) is raised nowhere in
this module. -/
def bootstrap (cffi_available ctypes_available : Bool) : Except ModuleError String :=
  if cffi_available then .ok "cffi"
  else if ctypes_available then .ok "ctypes"
  else .error .importError

/-- Host-native Python target types passed to native(type_, value). -/
inductive PyType where
  | str
  | bytes
  | int
  deriving DecidableEq

/-- Type-name strings of the resolver are modelled as character lists so
that the Python slice operations s[-n:] and s[:-n] are explicit. -/
def tn (s : String) : List Char := s.toList

/-- Python s[-n:]: all but the first length - n characters (the whole
string when it is shorter than n). -/
def sliceFrom (s : List Char) (n : Nat) : List Char := s.drop (s.length - n)

/-- Python s[:-n]: drop the last n characters (empty when shorter). -/
def dropLastN (s : List Char) (n : Nat) : List Char := s.take (s.length - n)

namespace Cffi

/-- cdata objects and host Python values crossing the cffi primitives:
ffi.NULL; an owned unsigned char[] allocation; an owned array of pointers
(for example from buffer_pointer, or an out-parameter block); the result
of an ffi.cast to a handle or pointer type at a raw address; a fresh
ffi.new allocation; a struct pointer and a struct view, each owning their
byte image; and host int, bytes and str values. -/
inductive PyVal where
  | NULL
  | ucharArray (bs : List Nat)
  | ptrArray (elems : List PyVal)
  | handleCast (ty : String) (addr : Int)
  | newPtr (ty : String) (init : Option PyVal)
  | structPtr (name : String) (bytes : List Nat)
  | structVal (name : String) (bytes : List Nat)
  | pyInt (n : Int)
  | pyBytes (bs : List Nat)
  | pyStr (cs : List Char)

/-- The declaration environment of the FFI object that _get_ffi(library)
returns (lines 33-36): byte sizes of declared type names and of declared
struct names; an undeclared name makes the cffi operation raise.
register_ffi (lines 30-31) only selects which environment is in effect,
so the primitives below take the environment directly. -/
structure CffiEnv where
  typeSize : String → Option Nat
  structSize : String → Option Nat

/-- null (lines 66-67): ffi.NULL. -/
def null : PyVal := .NULL

/-- The comparison point == ffi.NULL: cdata pointer comparison.  A cast
carrying address zero is a null pointer and compares equal to ffi.NULL;
arrays, fresh allocations and struct instances live at nonnull addresses;
a host value never compares equal to a cdata. -/
def eqNULL : PyVal → Bool
  | .NULL => true
  | .handleCast _ addr => addr == 0
  | _ => false

/-- The subscript point[0] on the values we model.  Indexing ffi.NULL or a
bare cast address dereferences unowned memory (a fault in the model);
char arrays yield their first byte as an int; pointer arrays their first
entry; a fresh ffi.new allocation its initializer (zero-initialized
scalar otherwise); a struct pointer the struct view; byte strings an int
and text a one-character string, as in Python. -/
def getitem0 : PyVal → Except PyErr PyVal
  | .NULL => .error .memError
  | .ucharArray [] => .error .indexError
  | .ucharArray (b :: _) => .ok (.pyInt (Int.ofNat b))
  | .ptrArray [] => .error .indexError
  | .ptrArray (e :: _) => .ok e
  | .handleCast _ _ => .error .memError
  | .newPtr _ (some v) => .ok v
  | .newPtr _ none => .ok (.pyInt 0)
  | .structPtr name bs => .ok (.structVal name bs)
  | .structVal _ _ => .error .typeError
  | .pyInt _ => .error .typeError
  | .pyBytes [] => .error .indexError
  | .pyBytes (b :: _) => .ok (.pyInt (Int.ofNat b))
  | .pyStr [] => .error .indexError
  | .pyStr (c :: _) => .ok (.pyStr [c])

/-- is_null (lines 69-74): point == ffi.NULL, else point[0] == ffi.NULL,
else False. -/
def is_null (point : PyVal) : Except PyErr Bool :=
  if eqNULL point then .ok true
  else
    match getitem0 point with
    | .error e => .error e
    | .ok v => if eqNULL v then .ok true else .ok false

/-- buffer_from_bytes (lines 38-39): ffi.new(unsigned char[], initializer).
cffi sizes the array one item longer than the byte initializer and stores
a terminating zero byte in the extra slot. -/
def buffer_from_bytes (initializer : List Nat) : PyVal :=
  .ucharArray (initializer ++ [0])

/-- ffi.buffer(cdata)[:]: the full byte contents of an owned allocation,
terminator included; TypeError on host values. -/
def ffi_buffer : PyVal → Except PyErr (List Nat)
  | .ucharArray bs => .ok bs
  | .structPtr _ bs => .ok bs
  | .structVal _ bs => .ok bs
  | _ => .error .typeError

/-- ffi.buffer(cdata, n)[:]: the first n bytes; an error past the end of
the allocation; TypeError on host values. -/
def ffi_buffer_n (v : PyVal) (n : Nat) : Except PyErr (List Nat) :=
  match v with
  | .ucharArray bs => if n ≤ bs.length then .ok (bs.take n) else .error .ffiError
  | .structPtr _ bs => if n ≤ bs.length then .ok (bs.take n) else .error .ffiError
  | .structVal _ bs => if n ≤ bs.length then .ok (bs.take n) else .error .ffiError
  | _ => .error .typeError

/-- bytes_from_buffer (lines 55-58): ffi.buffer(buffer, maxlen)[:] when
maxlen is given, else ffi.buffer(buffer)[:]. -/
def bytes_from_buffer (buffer : PyVal) (maxlen : Option Nat) : Except PyErr (List Nat) :=
  match maxlen with
  | some m => ffi_buffer_n buffer m
  | none => ffi_buffer buffer

/-- ffi.string(value) (line 140 and line 91): decode a null-terminated
byte string from char-like cdata; TypeError on host-native values;
RuntimeError on ffi.NULL; reads behind bare pointers are not modelled. -/
def ffi_string : PyVal → Except PyErr PyVal
  | .ucharArray bs => .ok (.pyBytes (bs.takeWhile (fun b => b != 0)))
  | .NULL => .error .ffiError
  | .handleCast _ _ => .error .memError
  | .ptrArray _ => .error .memError
  | .newPtr _ _ => .error .memError
  | .structPtr _ _ => .error .memError
  | .structVal _ _ => .error .memError
  | .pyInt _ => .error .typeError
  | .pyBytes _ => .error .typeError
  | .pyStr _ => .error .typeError

/-- int(value), for line 94: only the identity case on host integers is
exercised by this development; other payloads are left as type errors. -/
def py_int_of : PyVal → Except PyErr PyVal
  | .pyInt n => .ok (.pyInt n)
  | _ => .error .typeError

/-- native (lines 89-94): dispatch on the identity of the target type
object, with no isinstance short-circuit; str goes through ffi.string,
bytes through ffi.buffer, anything else through the constructor. -/
def native (type_ : PyType) (value : PyVal) : Except PyErr PyVal :=
  match type_ with
  | .str => ffi_string value
  | .bytes =>
    match ffi_buffer value with
    | .ok bs => .ok (.pyBytes bs)
    | .error e => .error e
  | .int => py_int_of value

/-- deref (lines 96-97): point[0]. -/
def deref (point : PyVal) : Except PyErr PyVal := getitem0 point

/-- unwrap (lines 99-100): also point[0]. -/
def unwrap (point : PyVal) : Except PyErr PyVal := getitem0 point

/-- ffi.cast(type_, addr) on declared handle or pointer types. -/
def ffi_cast (env : CffiEnv) (type_ : String) (addr : Int) : Except PyErr PyVal :=
  match env.typeSize type_ with
  | some _ => .ok (.handleCast type_ addr)
  | none => .error .ffiError

/-- ffi.new(type_, *params) on declared types: a fresh allocation,
initialized from the single optional parameter. -/
def ffi_new (env : CffiEnv) (type_ : String) (params : List PyVal) : Except PyErr PyVal :=
  match env.typeSize type_ with
  | some _ => .ok (.newPtr type_ params.head?)
  | none => .error .ffiError

/-- new (lines 79-87): build the params list from the optional value, but
for the two BCRYPT handle names return ffi.cast(type_, 0) ignoring the
params; every other name goes to ffi.new(type_, *params). -/
def new (env : CffiEnv) (type_ : String) (value : Option PyVal) : Except PyErr PyVal :=
  let params := match value with
    | some v => [v]
    | none => []
  if type_ == "BCRYPT_KEY_HANDLE" || type_ == "BCRYPT_ALG_HANDLE" then
    ffi_cast env type_ 0
  else
    ffi_new env type_ params

/-- struct_bytes (lines 106-107): ffi.buffer(struct_)[:]. -/
def struct_bytes (struct_ : PyVal) : Except PyErr (List Nat) := ffi_buffer struct_

/-- struct_from_buffer (lines 109-116): allocate a fresh struct of the
named type, copy sizeof(struct) leading bytes of buffer over it with the
slice assignment, and return the new struct pointer. -/
def struct_from_buffer (env : CffiEnv) (name : String) (buffer : PyVal) :
    Except PyErr PyVal :=
  match env.structSize name with
  | none => .error .ffiError
  | some struct_size =>
    match ffi_buffer_n buffer struct_size with
    | .error e => .error e
    | .ok src => .ok (.structPtr name src)

/-- The string_types dict literal inside array_from_pointer
(lines 126-135).  Note that this definition carries no platform
parameter: the source lines contain no sys.platform condition, so the
same set is recognized on every host operating system. -/
def string_types (name : String) : Bool :=
  name == "LPSTR" || name == "LPCSTR" || name == "LPWSTR" || name == "LPCWSTR" ||
  name == "char *" || name == "unsigned char *" || name == "wchar_t *"

/-- Values ffi.cast accepts as its source operand: cdata or integers;
host byte strings and text raise TypeError. -/
def castable : PyVal → Bool
  | .pyBytes _ => false
  | .pyStr _ => false
  | _ => true

/-- The element read array[i] after ffi.cast(name[size], point): only
reads inside a modelled allocation of matching shape succeed; a NULL,
bare-address or out-of-allocation read is a memory fault in the model. -/
def castIndex (point : PyVal) (i : Nat) : Except PyErr PyVal :=
  match point with
  | .ucharArray bs =>
    match bs.get? i with
    | some b => .ok (.pyInt (Int.ofNat b))
    | none => .error .memError
  | .ptrArray es =>
    match es.get? i with
    | some e => .ok e
    | none => .error .memError
  | _ => .error .memError

/-- array_from_pointer (lines 118-142): cast point to an array type of
the given element name and size, return [] as soon as the total byte
size is zero, otherwise collect the size elements, decoding each through
ffi.string when the element name is in string_types. -/
def array_from_pointer (env : CffiEnv) (name : String) (point : PyVal) (size : Nat) :
    Except PyErr (List PyVal) :=
  match env.typeSize name with
  | none => .error .ffiError
  | some itemSize =>
    if castable point then
      let total_bytes := itemSize * size
      if total_bytes == 0 then .ok []
      else
        (List.range size).mapM (fun i =>
          match castIndex point i with
          | .error e => .error e
          | .ok value => if string_types name then ffi_string value else .ok value)
    else .error .typeError

end Cffi

namespace Ctypes

/-- ctypes native type codes appearing in the resolver tables. -/
inductive CType where
  | c_void_p
  | c_wchar_p
  | c_char_p
  | c_int
  | c_uint
  | c_size_t
  | ULONG
  | DWORD
  | libType (name : List Char)
  | POINTER (t : CType)
  deriving DecidableEq

/-- A loaded library handle: attribute lookup yields library-declared
type classes, modelled by the sizeof table of the declared classes. -/
structure Library where
  structs : List Char → Option Nat

/-- getattr(library, name) (line 193 and line 278): the library-declared
class, AttributeError when the library has no such attribute. -/
def getattr (library : Library) (name : List Char) : Except PyErr CType :=
  match library.structs name with
  | some _ => .ok (.libType name)
  | none => .error .attributeError

/-- _pointer_types (lines 151-155), extended with the four Windows string
pointer names only when sys.platform is win32 (lines 165-172). -/
def _pointer_types (win32 : Bool) (t : List Char) : Bool :=
  t == tn "void *" || t == tn "wchar_t *" || t == tn "char *" ||
  (win32 && (t == tn "LPSTR" || t == tn "LPWSTR" || t == tn "LPCSTR" || t == tn "LPCWSTR"))

/-- _type_map (lines 156-164), extended with the Windows entries only
when sys.platform is win32 (lines 173-180). -/
def _type_map (win32 : Bool) (t : List Char) : Option CType :=
  if t == tn "void *" then some .c_void_p
  else if t == tn "wchar_t *" then some .c_wchar_p
  else if t == tn "char *" then some .c_char_p
  else if t == tn "unsigned char *" then some .c_char_p
  else if t == tn "int" then some .c_int
  else if t == tn "unsigned int" then some .c_uint
  else if t == tn "size_t" then some .c_size_t
  else if win32 then
    if t == tn "LPSTR" then some .c_char_p
    else if t == tn "LPWSTR" then some .c_wchar_p
    else if t == tn "LPCSTR" then some .c_char_p
    else if t == tn "LPCWSTR" then some .c_wchar_p
    else if t == tn "ULONG" then some .ULONG
    else if t == tn "DWORD" then some .DWORD
    else none
  else none

/-- Base-name resolution (lines 190-193): the built-in table, else an
attribute of the library handle. -/
def lookupBase (win32 : Bool) (library : Library) (t : List Char) : Except PyErr CType :=
  match _type_map win32 t with
  | some ct => .ok ct
  | none => getattr library t

/-- _is_pointer_type (lines 182-198): detect a trailing star pair, strip
one star; detect a trailing single star not already an atomic pointer
name, strip it; resolve what remains; re-add one POINTER level for the
double case.  The returned flag tells the caller to add the other level. -/
def _is_pointer_type (win32 : Bool) (library : Library) (type_ : List Char) :
    Except PyErr (Bool × CType) :=
  let is_double_pointer := sliceFrom type_ 3 == tn " **"
  let t1 := if is_double_pointer then dropLastN type_ 1 else type_
  let is_pointer := (sliceFrom t1 2 == tn " *") && !(_pointer_types win32 t1)
  let t2 := if is_pointer then dropLastN t1 2 else t1
  match lookupBase win32 library t2 with
  | .error e => .error e
  | .ok ct => .ok (is_pointer, if is_double_pointer then .POINTER ct else ct)

/-- The complete type resolution performed by the callers cast and new
(lines 212-218 and 245-256): _is_pointer_type, then one extra POINTER
level when the returned flag is set. -/
def resolve (win32 : Bool) (library : Library) (type_ : List Char) : Except PyErr CType :=
  match _is_pointer_type win32 library type_ with
  | .error e => .error e
  | .ok (is_pointer, ct) => .ok (if is_pointer then .POINTER ct else ct)

/-- The resolution algorithm exactly as claim C9 words it: strip a
trailing star suffix (single or double), resolve the remaining base name
via the built-in table else as a library attribute, and re-wrap with one
or two levels of indirection respectively; except that a name ending in
a single star that appears verbatim in the known-already-a-pointer set
is resolved as one atomic pointer type with no extra indirection. -/
def claim_resolve (win32 : Bool) (library : Library) (type_ : List Char) :
    Except PyErr CType :=
  if sliceFrom type_ 3 == tn " **" then
    match lookupBase win32 library (dropLastN type_ 3) with
    | .ok ct => .ok (.POINTER (.POINTER ct))
    | .error e => .error e
  else if (sliceFrom type_ 2 == tn " *") && _pointer_types win32 type_ then
    lookupBase win32 library type_
  else if sliceFrom type_ 2 == tn " *" then
    match lookupBase win32 library (dropLastN type_ 2) with
    | .ok ct => .ok (.POINTER ct)
    | .error e => .error e
  else lookupBase win32 library type_

/-- The resolution algorithm as the amended claim words it: a name ending
in a double star first loses one star; if the remaining single-star name
is in the known-already-a-pointer set it resolves as that atomic pointer
type and gains exactly one POINTER level, otherwise its base (without
the single star) resolves and gains two levels.  A single-star name in
the set resolves atomically with no added level; any other single-star
name resolves its base with one added level; anything else resolves
directly. -/
def amended_resolve (win32 : Bool) (library : Library) (type_ : List Char) :
    Except PyErr CType :=
  if sliceFrom type_ 3 == tn " **" then
    if _pointer_types win32 (dropLastN type_ 1) then
      match lookupBase win32 library (dropLastN type_ 1) with
      | .ok ct => .ok (.POINTER ct)
      | .error e => .error e
    else
      match lookupBase win32 library (dropLastN type_ 3) with
      | .ok ct => .ok (.POINTER (.POINTER ct))
      | .error e => .error e
  else if (sliceFrom type_ 2 == tn " *") && !(_pointer_types win32 type_) then
    match lookupBase win32 library (dropLastN type_ 2) with
    | .ok ct => .ok (.POINTER ct)
    | .error e => .error e
  else lookupBase win32 library type_

/-- ctypes instances and host Python values crossing the primitives: the
host None, int, bytes and str; a create_string_buffer allocation (an
array of c_char); a c_byte array from byte_array; a simple scalar
instance such as c_int; a c_char_p (null or pointing at a byte string);
a typed pointer instance (null or carrying its pointee); and a
library-declared struct instance owning its byte image. -/
inductive CtVal where
  | pyNone
  | pyInt (n : Int)
  | pyBytes (bs : List Nat)
  | pyStr (cs : List Char)
  | charBuffer (bs : List Nat)
  | byteArray (bs : List Nat)
  | cInt (n : Int)
  | cCharP (target : Option (List Nat))
  | ptr (target : Option CtVal)
  | structVal (name : List Char) (bytes : List Nat)

/-- Python bool(value) on the modelled values: None is falsy, numbers by
value, sequences by emptiness; a ctypes pointer or c_char_p is falsy
exactly when the pointer itself is null; arrays and struct instances use
the default object truth and are always truthy. -/
def truthy : CtVal → Bool
  | .pyNone => false
  | .pyInt n => n != 0
  | .pyBytes bs => !bs.isEmpty
  | .pyStr cs => !cs.isEmpty
  | .charBuffer _ => true
  | .byteArray _ => true
  | .cInt n => n != 0
  | .cCharP none => false
  | .cCharP (some _) => true
  | .ptr none => false
  | .ptr (some _) => true
  | .structVal _ _ => true

/-- null (lines 236-237): None. -/
def null : CtVal := .pyNone

/-- is_null (lines 239-240): not bool(point); no dereference of any
kind takes place. -/
def is_null (point : CtVal) : Bool := !(truthy point)

/-- buffer_from_bytes (lines 203-204): ctypes.create_string_buffer makes
the buffer one item larger than the byte initializer so that the last
element is a NUL termination character. -/
def buffer_from_bytes (initializer : List Nat) : CtVal :=
  .charBuffer (initializer ++ [0])

/-- bytes_from_buffer (lines 223-228): ints and c_char_p values go
through ctypes.string_at (reading a raw integer address is a fault in
the model, and string_at with size None is a TypeError); everything else
reads .raw, sliced to maxlen when given. -/
def bytes_from_buffer (buffer : CtVal) (maxlen : Option Nat) : Except PyErr (List Nat) :=
  match buffer with
  | .pyInt _ => .error .memError
  | .cCharP none => .error .memError
  | .cCharP (some bs) =>
    match maxlen with
    | some m => if m ≤ bs.length then .ok (bs.take m) else .error .memError
    | none => .error .typeError
  | .charBuffer bs =>
    match maxlen with
    | some m => .ok (bs.take m)
    | none => .ok bs
  | _ => .error .attributeError

/-- The automatic conversion ctypes applies when reading through a
pointer subscript: simple scalar instances become host values, a
c_char_p pointee becomes bytes (or None); everything else (structs,
pointers, arrays) is returned as the ctypes object. -/
def getitemConvert : CtVal → CtVal
  | .cInt n => .pyInt n
  | .cCharP (some bs) => .pyBytes bs
  | .cCharP none => .pyNone
  | v => v

/-- deref (lines 265-266): point[0], with the automatic simple-type
conversion; subscripting a null pointer raises. -/
def deref (point : CtVal) : Except PyErr CtVal :=
  match point with
  | .ptr (some v) => .ok (getitemConvert v)
  | .ptr none => .error .valueError
  | .charBuffer [] => .error .indexError
  | .charBuffer (b :: _) => .ok (.pyBytes [b])
  | _ => .error .typeError

/-- unwrap (lines 268-269): point.contents, the ctypes object one level
down with no conversion; a null pointer raises, and values without a
contents attribute raise AttributeError. -/
def unwrap (point : CtVal) : Except PyErr CtVal :=
  match point with
  | .ptr (some v) => .ok v
  | .ptr none => .error .valueError
  | _ => .error .attributeError

/-- isinstance(value, type_) for the host-native target types. -/
def isinstance (value : CtVal) : PyType → Bool
  | .str => match value with
    | .pyStr _ => true
    | _ => false
  | .bytes => match value with
    | .pyBytes _ => true
    | _ => false
  | .int => match value with
    | .pyInt _ => true
    | _ => false

/-- value.value on ctypes instances (line 263): the scalar payload of a
simple cdata, the NUL-terminated content of a char array; other values
have no value attribute. -/
def dotValue : CtVal → Except PyErr CtVal
  | .cInt n => .ok (.pyInt n)
  | .cCharP (some bs) => .ok (.pyBytes bs)
  | .cCharP none => .ok .pyNone
  | .charBuffer bs => .ok (.pyBytes (bs.takeWhile (fun b => b != 0)))
  | _ => .error .attributeError

/-- type_(x) (line 263): the target-type constructor applied to the
extracted payload; only like-typed payloads are exercised here. -/
def construct (type_ : PyType) (payload : CtVal) : Except PyErr CtVal :=
  match type_, payload with
  | .int, .pyInt n => .ok (.pyInt n)
  | .bytes, .pyBytes bs => .ok (.pyBytes bs)
  | .str, .pyStr cs => .ok (.pyStr cs)
  | _, _ => .error .typeError

/-- native (lines 258-263): pass value through when it is already an
instance of the target type; copy a c_byte array out as bytes; otherwise
apply the target type to value.value. -/
def native (type_ : PyType) (value : CtVal) : Except PyErr CtVal :=
  if isinstance value type_ then .ok value
  else
    match value with
    | .byteArray bs => .ok (.pyBytes bs)
    | _ =>
      match dotValue value with
      | .error e => .error e
      | .ok payload => construct type_ payload

/-- The bytes ctypes.memmove reads from its source object (line 280):
the leading n bytes of a buffer or byte string; reading past the end of
the source allocation is undefined behaviour, a fault in the model. -/
def memmove_read (buffer : CtVal) (n : Nat) : Except PyErr (List Nat) :=
  match buffer with
  | .charBuffer bs => if n ≤ bs.length then .ok (bs.take n) else .error .memError
  | .pyBytes bs => if n ≤ bs.length then .ok (bs.take n) else .error .memError
  | _ => .error .typeError

/-- struct_from_buffer (lines 277-281): look the class up on the library,
instantiate it, memmove sizeof(class_) bytes from buffer over it and
return a pointer to the instance. -/
def struct_from_buffer (library : Library) (type_ : List Char) (buffer : CtVal) :
    Except PyErr CtVal :=
  match library.structs type_ with
  | none => .error .attributeError
  | some n =>
    match memmove_read buffer n with
    | .error e => .error e
    | .ok src => .ok (.ptr (some (.structVal type_ src)))

/-- struct_bytes (lines 274-275): ctypes.string_at of the struct pointer
for sizeof(struct_.contents) bytes, which is the full byte image the
struct instance owns. -/
def struct_bytes (struct_ : CtVal) : Except PyErr (List Nat) :=
  match struct_ with
  | .ptr (some (.structVal _ bs)) => .ok bs
  | .ptr none => .error .valueError
  | _ => .error .typeError

/-- Values ctypes.cast accepts as its source object (anything the
c_void_p argument machinery takes: ctypes instances, None, ints, bytes);
host text is rejected. -/
def castable : CtVal → Bool
  | .pyStr _ => false
  | _ => true

/-- The element read array[i] after ctypes.cast(point, POINTER(t)): only
reads inside a modelled allocation succeed; a null or raw-address read
is a memory fault in the model. -/
def arrayIndex (point : CtVal) (i : Nat) : Except PyErr CtVal :=
  match point with
  | .ptr (some v) => if i == 0 then .ok (getitemConvert v) else .error .memError
  | .charBuffer bs =>
    match bs.get? i with
    | some b => .ok (.pyInt (Int.ofNat b))
    | none => .error .memError
  | _ => .error .memError

/-- array_from_pointer (lines 283-289): resolve the element type, cast
point to a pointer to it, and read size elements; no string decoding
table exists in this engine. -/
def array_from_pointer (win32 : Bool) (library : Library) (type_ : List Char)
    (point : CtVal) (size : Nat) : Except PyErr (List CtVal) :=
  match _is_pointer_type win32 library type_ with
  | .error e => .error e
  | .ok _ =>
    if castable point then (List.range size).mapM (fun i => arrayIndex point i)
    else .error .typeError

end Ctypes

/-- A library handle with no declared attributes. -/
def emptyLib : Ctypes.Library := ⟨fun _ => none⟩

/-- A cffi declaration environment with no declared names. -/
def emptyEnv : Cffi.CffiEnv := ⟨fun _ => none, fun _ => none⟩

/-- A cffi environment declaring the two BCRYPT handle types and int. -/
def envC10 : Cffi.CffiEnv :=
  ⟨fun ty =>
    if ty == "BCRYPT_KEY_HANDLE" || ty == "BCRYPT_ALG_HANDLE" then some 8
    else if ty == "int" then some 4 else none,
   fun _ => none⟩

/-- A cffi environment declaring unsigned char and the LPSTR pointer
name (as on Windows library declarations). -/
def envC4 : Cffi.CffiEnv :=
  ⟨fun ty =>
    if ty == "unsigned char" then some 1
    else if ty == "LPSTR" then some 8 else none,
   fun _ => none⟩

/-- A cffi environment declaring one struct named demo of size two. -/
def envC6 : Cffi.CffiEnv :=
  ⟨fun _ => none, fun n => if n == "demo" then some 2 else none⟩

/-- A ctypes library declaring one struct class DEMO of size one. -/
def libC6 : Ctypes.Library := ⟨fun t => if t == tn "DEMO" then some 1 else none⟩

/-- C1 counterexample: on both engines the byte round-trip through
buffer_from_bytes and bytes_from_buffer (maxlen unspecified) returns the
input followed by the backend NUL terminator, not the input itself, so
the claimed identity fails at b = [1, 2, 3]. -/
theorem C1_counterexample :
    Cffi.bytes_from_buffer (Cffi.buffer_from_bytes [1, 2, 3]) none = .ok [1, 2, 3, 0] ∧
    Cffi.bytes_from_buffer (Cffi.buffer_from_bytes [1, 2, 3]) none ≠ .ok [1, 2, 3] ∧
    Ctypes.bytes_from_buffer (Ctypes.buffer_from_bytes [1, 2, 3]) none = .ok [1, 2, 3, 0] ∧
    Ctypes.bytes_from_buffer (Ctypes.buffer_from_bytes [1, 2, 3]) none ≠ .ok [1, 2, 3] := by
  refine ⟨rfl, ?_, rfl, ?_⟩ <;> decide

/-- C1 amended: for every byte sequence b, bytes_from_buffer applied to
buffer_from_bytes(b) with maxlen unspecified returns b followed by one
zero byte (the terminator both backends allocate), on both engines. -/
theorem C1_amended (bs : List Nat) :
    Cffi.bytes_from_buffer (Cffi.buffer_from_bytes bs) none = .ok (bs ++ [0]) ∧
    Ctypes.bytes_from_buffer (Ctypes.buffer_from_bytes bs) none = .ok (bs ++ [0]) :=
  ⟨rfl, rfl⟩

/-- C2 counterexample: when neither engine is importable the module
bootstrap escapes with ImportError, not with FFIEngineError as the
claim states. -/
theorem C2_counterexample :
    bootstrap false false = .error .importError ∧
    bootstrap false false ≠ .error .ffiEngineError :=
  ⟨rfl, by decide⟩

/-- C2 amended: when neither the cffi nor the ctypes import succeeds,
the failure surfaces at the import boundary as the uncaught ImportError
of the ctypes import; FFIEngineError is defined by the module but raised
on no bootstrap path. -/
theorem C2_amended :
    bootstrap false false = .error .importError ∧
    ∀ c t : Bool, bootstrap c t ≠ .error .ffiEngineError :=
  ⟨rfl, by decide⟩

/-- C3 counterexample: a non-null pointer-to-pointer whose first
dereferenced entry is null.  The claim requires is_null to answer true
under both engines; the cffi engine does, the ctypes engine (which only
tests the truthiness of the pointer itself) answers false. -/
theorem C3_counterexample :
    Ctypes.is_null (.ptr (some (.ptr none))) = false ∧
    Cffi.is_null (.ptrArray [.NULL]) = .ok true :=
  ⟨rfl, rfl⟩

/-- C3 amended: is_null(null()) is true and is_null of a fresh buffer is
false on both engines; but the two contracts differ: under cffi, is_null
is true exactly when the pointer is NULL or its first entry reads as
NULL, while under ctypes is_null is bare falsiness of the value, so a
non-null pointer is never null regardless of what it points to. -/
theorem C3_amended :
    (Cffi.is_null Cffi.null = .ok true ∧ Ctypes.is_null Ctypes.null = true) ∧
    (∀ bs : List Nat, Cffi.is_null (Cffi.buffer_from_bytes bs) = .ok false) ∧
    (∀ bs : List Nat, Ctypes.is_null (Ctypes.buffer_from_bytes bs) = false) ∧
    (∀ p, Cffi.is_null p = .ok true ↔
      (Cffi.eqNULL p = true ∨ ∃ v, Cffi.getitem0 p = .ok v ∧ Cffi.eqNULL v = true)) ∧
    (∀ v, Ctypes.is_null (.ptr (some v)) = false) ∧
    (∀ p, Ctypes.is_null p = !(Ctypes.truthy p)) := by
  refine ⟨⟨rfl, rfl⟩, ?_, fun bs => rfl, ?_, fun v => rfl, fun p => rfl⟩
  · intro bs; cases bs <;> rfl
  · intro p
    unfold Cffi.is_null
    cases hq : Cffi.eqNULL p with
    | true => simp [hq]
    | false =>
      cases hg : Cffi.getitem0 p with
      | error e => simp [hq, hg]
      | ok v =>
        cases hv : Cffi.eqNULL v with
        | true => simp [hq, hg, hv]
        | false => simp [hq, hg, hv]

/-- C5 counterexample: under the cffi engine native has no pass-through:
applied to a value already of the target type it raises TypeError for
the bytes and str targets (ffi.buffer and ffi.string require cdata). -/
theorem C5_counterexample :
    Cffi.native .bytes (.pyBytes [97]) = .error .typeError ∧
    Cffi.native .str (.pyStr ['a']) = .error .typeError :=
  ⟨rfl, rfl⟩

/-- C5 amended: the pass-through for a value already of the target type
exists only in the ctypes engine (an explicit isinstance test); the cffi
engine always routes str targets through ffi.string and bytes targets
through ffi.buffer, which raise on host-native values, and rebuilds an
equal value through the constructor for int targets. -/
theorem C5_amended (t : PyType) (v : Ctypes.CtVal) (h : Ctypes.isinstance v t = true) :
    Ctypes.native t v = .ok v ∧
    (∀ bs : List Nat, Cffi.native .bytes (.pyBytes bs) = .error .typeError) ∧
    (∀ cs : List Char, Cffi.native .str (.pyStr cs) = .error .typeError) ∧
    (∀ n : Int, Cffi.native .int (.pyInt n) = .ok (.pyInt n)) := by
  refine ⟨?_, fun bs => rfl, fun cs => rfl, fun n => rfl⟩
  unfold Ctypes.native
  simp [h]

/-- C5 witness: the ctypes pass-through at the concrete instance int 5. -/
theorem C5_witness : Ctypes.native .int (.pyInt 5) = .ok (.pyInt 5) :=
  (C5_amended .int (.pyInt 5) rfl).1

/-- C7 counterexample: under the ctypes engine deref and unwrap disagree
on a pointer to the simple scalar c_int 5: subscripting converts the
pointee to the host int 5, while contents returns the c_int object. -/
theorem C7_counterexample :
    Ctypes.deref (.ptr (some (.cInt 5))) = .ok (.pyInt 5) ∧
    Ctypes.unwrap (.ptr (some (.cInt 5))) = .ok (.cInt 5) ∧
    Ctypes.deref (.ptr (some (.cInt 5))) ≠ Ctypes.unwrap (.ptr (some (.cInt 5))) := by
  refine ⟨rfl, rfl, fun h => ?_⟩
  rw [show Ctypes.deref (.ptr (some (.cInt 5))) = .ok (.pyInt 5) from rfl,
    show Ctypes.unwrap (.ptr (some (.cInt 5))) = .ok (.cInt 5) from rfl] at h
  exact Ctypes.CtVal.noConfusion (Except.ok.inj h)

/-- C7 amended: under cffi deref and unwrap are the same operation (both
are point[0]); under ctypes they agree exactly on pointees that the
subscript conversion leaves untouched (structs, pointers, arrays), and
differ on simple scalar pointees, where deref yields the converted host
value and unwrap the ctypes object. -/
theorem C7_amended (v : Ctypes.CtVal) (h : Ctypes.getitemConvert v = v) :
    (∀ p, Cffi.deref p = Cffi.unwrap p) ∧
    Ctypes.deref (.ptr (some v)) = Ctypes.unwrap (.ptr (some v)) ∧
    (∀ n : Int, Ctypes.deref (.ptr (some (.cInt n))) = .ok (.pyInt n) ∧
      Ctypes.unwrap (.ptr (some (.cInt n))) = .ok (.cInt n)) := by
  refine ⟨fun p => rfl, ?_, fun n => ⟨rfl, rfl⟩⟩
  show Except.ok (Ctypes.getitemConvert v) = Except.ok v
  rw [h]

/-- C7 witness: a struct pointee, where the two reads agree. -/
theorem C7_witness :
    Ctypes.deref (.ptr (some (.structVal (tn "DEMO") [1]))) =
      Ctypes.unwrap (.ptr (some (.structVal (tn "DEMO") [1]))) :=
  (C7_amended (.structVal (tn "DEMO") [1]) rfl).2.1

/-- C8 counterexample: the string-decoding table of the cffi engine
array_from_pointer contains the four Windows string-pointer names
unconditionally - its definition carries no platform condition at all -
so on a non-Windows host they are still recognized, against the claim;
the final conjunct shows LPSTR elements being string-decoded. -/
theorem C8_counterexample :
    Cffi.string_types "LPSTR" = true ∧ Cffi.string_types "LPCSTR" = true ∧
    Cffi.string_types "LPWSTR" = true ∧ Cffi.string_types "LPCWSTR" = true ∧
    Cffi.array_from_pointer envC4 "LPSTR" (.ptrArray [.ucharArray [104, 105, 0]]) 1 =
      .ok [.pyBytes [104, 105]] :=
  ⟨rfl, rfl, rfl, rfl, rfl⟩

/-- C8 amended: the platform-conditional Windows additions live in the
ctypes engine type-resolution tables (_pointer_types and _type_map),
which contain LPSTR and friends exactly when the platform is win32; the
cffi engine string-decoding set recognizes those names on every
platform. -/
theorem C8_amended :
    (Cffi.string_types "LPSTR" = true ∧ Cffi.string_types "LPCSTR" = true ∧
     Cffi.string_types "LPWSTR" = true ∧ Cffi.string_types "LPCWSTR" = true) ∧
    (Ctypes._pointer_types false (tn "LPSTR") = false ∧
     Ctypes._pointer_types true (tn "LPSTR") = true ∧
     Ctypes._type_map false (tn "LPSTR") = none ∧
     Ctypes._type_map true (tn "LPSTR") = some .c_char_p ∧
     Ctypes._type_map false (tn "LPCWSTR") = none ∧
     Ctypes._type_map true (tn "LPCWSTR") = some .c_wchar_p) := by
  refine ⟨⟨rfl, rfl, rfl, rfl⟩, ?_, ?_, ?_, ?_, ?_, ?_⟩ <;> decide

/-- C10 confirmed: under the cffi engine, new for the two BCRYPT handle
names returns the integer zero cast to that type - a null handle - and
ignores any supplied value; for any other declared name it allocates a
fresh instance initialized from the value when one is given. -/
theorem C10_confirmed (env : Cffi.CffiEnv) (v : Cffi.PyVal) (ty : String)
    (k1 k2 m : Nat)
    (h1 : env.typeSize "BCRYPT_KEY_HANDLE" = some k1)
    (h2 : env.typeSize "BCRYPT_ALG_HANDLE" = some k2)
    (h3 : (ty == "BCRYPT_KEY_HANDLE") = false)
    (h4 : (ty == "BCRYPT_ALG_HANDLE") = false)
    (h5 : env.typeSize ty = some m) :
    (Cffi.new env "BCRYPT_KEY_HANDLE" (some v) = .ok (.handleCast "BCRYPT_KEY_HANDLE" 0) ∧
     Cffi.new env "BCRYPT_KEY_HANDLE" none = .ok (.handleCast "BCRYPT_KEY_HANDLE" 0) ∧
     Cffi.eqNULL (.handleCast "BCRYPT_KEY_HANDLE" 0) = true) ∧
    (Cffi.new env "BCRYPT_ALG_HANDLE" (some v) = .ok (.handleCast "BCRYPT_ALG_HANDLE" 0) ∧
     Cffi.new env "BCRYPT_ALG_HANDLE" none = .ok (.handleCast "BCRYPT_ALG_HANDLE" 0) ∧
     Cffi.eqNULL (.handleCast "BCRYPT_ALG_HANDLE" 0) = true) ∧
    Cffi.new env ty (some v) = .ok (.newPtr ty (some v)) ∧
    Cffi.new env ty none = .ok (.newPtr ty none) := by
  refine ⟨⟨?_, ?_, rfl⟩, ⟨?_, ?_, rfl⟩, ?_, ?_⟩ <;>
    simp [Cffi.new, Cffi.ffi_cast, Cffi.ffi_new, h1, h2, h3, h4, h5]

/-- C10 witness: concrete evaluations in an environment declaring the
handle types and int. -/
theorem C10_witness :
    Cffi.new envC10 "BCRYPT_KEY_HANDLE" (some (.pyInt 7)) =
      .ok (.handleCast "BCRYPT_KEY_HANDLE" 0) ∧
    Cffi.new envC10 "int" (some (.pyInt 7)) = .ok (.newPtr "int" (some (.pyInt 7))) :=
  ⟨(C10_confirmed envC10 (.pyInt 7) "int" 8 8 4 rfl rfl rfl rfl rfl).1.1,
   (C10_confirmed envC10 (.pyInt 7) "int" 8 8 4 rfl rfl rfl rfl rfl).2.2.1⟩

/-- C4 counterexample: an unresolvable type name makes array_from_pointer
raise on both engines even at size zero - the cffi cast of the formatted
array type and the ctypes _is_pointer_type lookup both run before the
zero-size guard - so the claim does not hold for every type name. -/
theorem C4_counterexample :
    Cffi.array_from_pointer emptyEnv "bogus" .NULL 0 = .error .ffiError ∧
    Ctypes.array_from_pointer false emptyLib (tn "bogus") .pyNone 0 =
      .error .attributeError :=
  ⟨rfl, rfl⟩

/-- C4 amended: for every type name that resolves under the active
engine and every castable pointer value (the null pointer included),
array_from_pointer with size zero returns the empty sequence and does
not raise, on both engines. -/
theorem C4_amended (env : Cffi.CffiEnv) (name : String) (k : Nat) (point : Cffi.PyVal)
    (win32 : Bool) (library : Ctypes.Library) (tname : List Char) (p : Ctypes.CtVal)
    (r : Bool × Ctypes.CType)
    (h1 : env.typeSize name = some k)
    (h2 : Cffi.castable point = true)
    (h3 : Ctypes._is_pointer_type win32 library tname = .ok r)
    (h4 : Ctypes.castable p = true) :
    Cffi.array_from_pointer env name point 0 = .ok [] ∧
    Ctypes.array_from_pointer win32 library tname p 0 = .ok [] := by
  constructor
  · simp [Cffi.array_from_pointer, h1, h2]
  · simp only [Ctypes.array_from_pointer, h3, h4, if_true]
    rfl

/-- C4 witness: concrete size-zero reads through a null pointer with
resolvable element types, on both engines. -/
theorem C4_witness :
    Cffi.array_from_pointer envC4 "unsigned char" .NULL 0 = .ok [] ∧
    Ctypes.array_from_pointer false emptyLib (tn "int") .pyNone 0 = .ok [] :=
  C4_amended envC4 "unsigned char" 1 .NULL false emptyLib (tn "int") .pyNone
    (false, .c_int) rfl rfl rfl rfl

/-- C6 confirmed: for a struct name known to the library or declaration
environment and a buffer whose byte length equals the struct size,
struct_from_buffer yields a pointer to a fresh struct whose struct_bytes
image equals the buffer exactly, on both engines. -/
theorem C6_confirmed (env : Cffi.CffiEnv) (library : Ctypes.Library) (name : String)
    (tname : List Char) (bs bs2 : List Nat) (n m : Nat)
    (h1 : env.structSize name = some n) (h2 : bs.length = n)
    (h3 : library.structs tname = some m) (h4 : bs2.length = m) :
    (Cffi.struct_from_buffer env name (.ucharArray bs)).bind Cffi.struct_bytes =
      .ok bs ∧
    (Ctypes.struct_from_buffer library tname (.charBuffer bs2)).bind Ctypes.struct_bytes =
      .ok bs2 := by
  subst h2; subst h4
  constructor
  · simp [Cffi.struct_from_buffer, h1, Cffi.ffi_buffer_n, Cffi.struct_bytes,
      Cffi.ffi_buffer, Except.bind]
  · simp [Ctypes.struct_from_buffer, h3, Ctypes.memmove_read, Ctypes.struct_bytes,
      Except.bind]

/-- C6 witness: concrete two-byte and one-byte struct round-trips. -/
theorem C6_witness :
    (Cffi.struct_from_buffer envC6 "demo" (.ucharArray [7, 9])).bind Cffi.struct_bytes =
      .ok [7, 9] ∧
    (Ctypes.struct_from_buffer libC6 (tn "DEMO") (.charBuffer [3])).bind
      Ctypes.struct_bytes = .ok [3] :=
  C6_confirmed envC6 libC6 "demo" (tn "DEMO") [7, 9] [3] 2 1 rfl rfl rfl rfl

theorem dropLastN_one_two (s : List Char) : dropLastN (dropLastN s 1) 2 = dropLastN s 3 := by
  simp only [dropLastN, List.length_take, List.take_take]
  congr 1
  omega

theorem sliceFrom_double_single (s : List Char) (h : sliceFrom s 3 = tn " **") :
    sliceFrom (dropLastN s 1) 2 = tn " *" := by
  have hlen : (sliceFrom s 3).length = 3 := by rw [h]; rfl
  have h3 : 3 ≤ s.length := by
    simp only [sliceFrom, List.length_drop] at hlen
    omega
  obtain ⟨A, hs⟩ : ∃ A, s = A ++ tn " **" :=
    ⟨List.take (s.length - 3) s, by rw [← h]; exact (List.take_append_drop _ s).symm⟩
  subst hs
  have hA : (A ++ tn " **").length = A.length + 3 := by
    rw [List.length_append]; rfl
  have h1 : dropLastN (A ++ tn " **") 1 = A ++ tn " *" := by
    unfold dropLastN
    rw [hA, List.take_append_eq_append_take, List.take_of_length_le (by omega)]
    congr 1
    have h2 : A.length + 3 - 1 - A.length = 2 := by omega
    rw [h2]
    rfl
  rw [h1]
  unfold sliceFrom
  have h4 : (A ++ tn " *").length = A.length + 2 := by
    rw [List.length_append]; rfl
  rw [h4]
  have h5 : A.length + 2 - 2 = A.length := by omega
  rw [h5]
  exact List.drop_left A (tn " *")

/-- C9 counterexample: the double-star form of an atomic pointer name.
The code resolves void ** by stripping one star, finding void * in the
pointer set, and adding a single POINTER level around c_void_p; the
algorithm as the claim words it strips the whole double-star suffix and
tries to resolve the base name void, which is neither in the table nor
on the library, so it raises AttributeError instead. -/
theorem C9_counterexample :
    Ctypes.resolve false emptyLib (tn "void **") = .ok (.POINTER .c_void_p) ∧
    Ctypes.claim_resolve false emptyLib (tn "void **") = .error .attributeError ∧
    Ctypes.resolve false emptyLib (tn "void **") ≠
      Ctypes.claim_resolve false emptyLib (tn "void **") := by
  refine ⟨rfl, rfl, ?_⟩
  decide

/-- C9 amended: the code resolution equals the claimed algorithm once
the already-a-pointer exception is applied after stripping one star of a
double-star suffix: such a name resolves its single-star remainder
(atomically when that remainder is in the pointer set, gaining one
POINTER level; otherwise its base, gaining two); the single-star and
plain cases are as the claim stated them. -/
theorem C9_amended (win32 : Bool) (library : Ctypes.Library) (type_ : List Char) :
    Ctypes.resolve win32 library type_ = Ctypes.amended_resolve win32 library type_ := by
  simp only [Ctypes.resolve, Ctypes._is_pointer_type, Ctypes.amended_resolve]
  by_cases hd : sliceFrom type_ 3 = tn " **"
  · have hdb : (sliceFrom type_ 3 == tn " **") = true := by simp [hd]
    have hsingle := sliceFrom_double_single type_ hd
    have hsb : (sliceFrom (dropLastN type_ 1) 2 == tn " *") = true := by simp [hsingle]
    simp only [hdb, if_true, hsb, Bool.true_and]
    cases hp : Ctypes._pointer_types win32 (dropLastN type_ 1) with
    | true =>
      simp only [hp, Bool.not_true, Bool.and_false, if_true]
      cases hl : Ctypes.lookupBase win32 library (dropLastN type_ 1) with
      | error e => simp [hl]
      | ok ct => simp [hl]
    | false =>
      simp only [hp, Bool.not_false, Bool.and_true, if_false]
      rw [dropLastN_one_two]
      cases hl : Ctypes.lookupBase win32 library (dropLastN type_ 3) with
      | error e => simp [hl]
      | ok ct => simp [hl]
  · have hdb : (sliceFrom type_ 3 == tn " **") = false := by simp [hd]
    by_cases hs : sliceFrom type_ 2 = tn " *"
    · by_cases hp : Ctypes._pointer_types win32 type_ = true
      · cases hl : Ctypes.lookupBase win32 library type_ with
        | error e => simp [hdb, hs, hp, hl]
        | ok ct => simp [hdb, hs, hp, hl]
      · have hp2 : Ctypes._pointer_types win32 type_ = false := by
          cases hh : Ctypes._pointer_types win32 type_
          · rfl
          · exact absurd hh hp
        cases hl : Ctypes.lookupBase win32 library (dropLastN type_ 2) with
        | error e => simp [hdb, hs, hp2, hl]
        | ok ct => simp [hdb, hs, hp2, hl]
    · have hs2 : (sliceFrom type_ 2 == tn " *") = false := by simp [hs]
      cases hl : Ctypes.lookupBase win32 library type_ with
      | error e => simp [hdb, hs2, hl]
      | ok ct => simp [hdb, hs2, hl]
